import Mathlib

/-!
Shallow embedding of the go-smart conversational service core, translated
from the Go sources: the tool registry (`pkg/tools/registry.go`), the
agentic tool-calling workflow (`pkg/graph/workflow.go`), the per-session
conversation state machine (`pkg/conversation/state.go` and the
`conversation` package files), and the runtime plugin manager
(`pkg/plugin`).  Go maps over string keys are modelled as association
lists with map semantics (insert replaces, delete removes the key);
`map[string]interface{}` argument and result payloads, which no covered
code path inspects, are modelled as string association lists; wall-clock
instants are integers threaded explicitly (one instant per call of a Go
function that reads `time.Now()`); durations are counted in hours, the
unit in which the source writes its constants.
-/

/-- Helper for `goContains`: `needle` occurs as a contiguous block of
`hay`. -/
def goContainsAux (needle : List Char) : List Char → Bool
  | [] => needle.isEmpty
  | c :: rest => needle.isPrefixOf (c :: rest) || goContainsAux needle rest

/-- Go `strings.Contains(s, pat)`: `pat` occurs as a substring of `s`.
Modelled on the character lists; for well-formed UTF-8 the byte-level and
rune-level substring relations coincide. -/
def goContains (s pat : String) : Bool :=
  goContainsAux pat.toList s.toList

/-- Go `strings.ToLower`, character-wise (ASCII case mapping; the inputs
these embeddings lower-case are ASCII or Chinese, on which Go's Unicode
mapping agrees). -/
def goToLower (s : String) : String :=
  String.mk (s.toList.map Char.toLower)

/-- Go `strings.ToUpper`, character-wise. -/
def goToUpper (s : String) : String :=
  String.mk (s.toList.map Char.toUpper)

/-- Go `strings.HasPrefix`. -/
def goHasPrefix (s pat : String) : Bool :=
  pat.toList.isPrefixOf s.toList

/-- Association-list update with Go map semantics: replace the binding of
`k` if present, otherwise append it. -/
def aset {α : Type} : List (String × α) → String → α → List (String × α)
  | [], k, v => [(k, v)]
  | (k₁, v₁) :: rest, k, v =>
    if k₁ = k then (k, v) :: rest else (k₁, v₁) :: aset rest k v

/-- Association-list removal with Go `delete` semantics. -/
def adel {α : Type} (l : List (String × α)) (k : String) : List (String × α) :=
  l.filter (fun p => p.1 ≠ k)

namespace Reg

/-- `map[string]interface{}` payloads passed to and returned by tools;
no covered code inspects the values, so they are kept as opaque strings. -/
abbrev ArgMap := List (String × String)

abbrev ResMap := List (String × String)

/-- A registered tool: the `ToolFunction` interface of
`pkg/tools/registry.go` (`GetName`, `GetDescription`, `GetParameters`,
`Call`).  The parameter schema is carried opaquely. -/
structure GTool where
  name : String
  descr : String
  params : List (String × String) := []
  call : ArgMap → Except String ResMap

/-- `ToolRegistry.tools`: a Go map from tool name to tool. -/
abbrev Registry := List (String × GTool)

/-- `ToolRegistry.RegisterTool`.  The Go `tool == nil` guard has no
counterpart here because a Lean value cannot be nil. -/
def registerTool (r : Registry) (t : GTool) : Except String Registry :=
  if t.name = "" then .error "tool name cannot be empty"
  else
    match List.lookup t.name r with
    | some _ => .error ("tool with name \x27" ++ t.name ++ "\x27 already registered")
    | none => .ok (aset r t.name t)

/-- `ToolRegistry.GetTool`. -/
def getTool (r : Registry) (name : String) : Option GTool :=
  List.lookup name r

/-- `ToolRegistry.UnregisterTool`. -/
def unregisterTool (r : Registry) (name : String) : Except String Registry :=
  match List.lookup name r with
  | none => .error ("tool \x27" ++ name ++ "\x27 not found")
  | some _ => .ok (adel r name)

/-- `ToolRegistry.CallTool`. -/
def callTool (r : Registry) (name : String) (args : ArgMap) : Except String ResMap :=
  match List.lookup name r with
  | none => .error ("tool \x27" ++ name ++ "\x27 not found")
  | some t => t.call args

end Reg

namespace Graph

/-- `graph.Message`: one entry of the workflow's accumulated message
history (`pkg/graph/workflow.go`). -/
structure Message where
  role : String
  content : String
deriving DecidableEq, Repr

/-- `graph.ToolCall`. -/
structure ToolCall where
  id : String
  name : String
  args : Reg.ArgMap
deriving DecidableEq, Repr

/-- `graph.ToolResult`.  Go zero values: `Result` is the nil map
(modelled `[]`), `Error` the empty string. -/
structure ToolResult where
  toolCallID : String
  result : Reg.ResMap := []
  error : String := ""
deriving DecidableEq, Repr

/-- `graph.State`. -/
structure State where
  messages : List Message
  toolCalls : List ToolCall := []
  toolResults : List ToolResult := []
  nextAction : String := ""
  isComplete : Bool := false
deriving DecidableEq, Repr

/-- The state installed by `NewWorkflow` (and by `Reset`). -/
def freshState : State :=
  { messages := [], isComplete := false }

/-- `graph.ModelResponse`: what one model invocation yields after
`callModel` has parsed it. -/
structure ModelResponse where
  content : String
  toolCalls : List ToolCall := []
deriving DecidableEq, Repr

/-- The model collaborator (`llm.LLMClient.Chat`): a function of the
rendered message list and the advertised tool definitions, returning
response text plus tool calls, or a transport error. -/
abbrev LLMClient := List Message → List (String × String) → Except String ModelResponse

/-- `tools.ToolManager` as seen by the workflow: the tool registry map. -/
abbrev ToolManager := Reg.Registry

/-- `Workflow.buildSystemPrompt`: the tool-catalogue system prompt.  Go
iterates the registry map in unspecified order; the list order stands in
for one such order. -/
def buildSystemPrompt (tm : ToolManager) : String :=
  let descriptions := tm.map (fun p => "- " ++ p.2.name ++ ": " ++ p.2.descr)
  "你是一个智能助手，可以帮助用户处理订单查询、退款申请和发票相关的问题。\n\n可用工具:\n"
    ++ String.intercalate "\n" descriptions
    ++ "\n\n使用工具的规则:\n1. 当用户需要查询订单信息时，使用order_query_tool\n2. 当用户需要申请退款时，使用refund_request_tool\n3. 当用户需要创建或查询发票时，使用invoice_tool\n\n请根据用户的问题，选择合适的工具来帮助用户。如果不需要使用工具，可以直接回答用户的问题。"

/-- `json.Marshal` of a tool-result payload, abstracted: no covered code
inspects the rendered text. -/
def marshalResult (r : Reg.ResMap) : String :=
  String.intercalate "," (r.map (fun p => p.1 ++ ":" ++ p.2))

/-- The message list `callModel` sends to the model: the system prompt,
the full accumulated history, then every accumulated tool result rendered
as a `tool`-role message (an explicit error note on failure, the
serialized payload otherwise). -/
def buildMessages (tm : ToolManager) (s : State) : List Message :=
  Message.mk "system" (buildSystemPrompt tm)
    :: s.messages
    ++ s.toolResults.map (fun r =>
        Message.mk "tool"
          (if r.error = "" then marshalResult r.result
           else "工具执行出错: " ++ r.error))

/-- The tool definitions `callModel` advertises (name and description;
the schema payload is opaque to the workflow). -/
def toolDefs (tm : ToolManager) : List (String × String) :=
  tm.map (fun p => (p.2.name, p.2.descr))

/-- `Workflow.callModel`: render the state and invoke the client. -/
def callModel (client : LLMClient) (tm : ToolManager) (s : State) :
    Except String ModelResponse :=
  client (buildMessages tm s) (toolDefs tm)

/-- `Workflow.executeTool`: registry lookup, then the tool's own call. -/
def executeTool (tm : ToolManager) (tc : ToolCall) : Except String Reg.ResMap :=
  match Reg.getTool tm tc.name with
  | none => .error ("工具不存在: " ++ tc.name)
  | some t => t.call tc.args

/-- Result of the `for !w.state.IsComplete` loop: normal exit, model
error, or fuel exhausted (the Go loop has no bound of its own, so the
embedding makes the iteration count explicit; `fuel` means the loop was
still running after that many iterations). -/
inductive LoopRes where
  | done (s : State)
  | failed (e : String) (s : State)
  | fuel (s : State)
deriving DecidableEq, Repr

/-- One Go loop iteration per unit of fuel: call the model, append the
assistant text, then either execute every tool call and continue, or mark
the state complete. -/
def runLoop (client : LLMClient) (tm : ToolManager) : Nat → State → LoopRes
  | 0, s => .fuel s
  | n + 1, s =>
    if s.isComplete then .done s
    else
      match callModel client tm s with
      | .error e => .failed ("调用模型失败: " ++ e) s
      | .ok resp =>
        let s₁ := { s with messages := s.messages ++ [Message.mk "assistant" resp.content] }
        if resp.toolCalls.isEmpty then
          runLoop client tm n { s₁ with isComplete := true }
        else
          let s₂ := { s₁ with toolCalls := s₁.toolCalls ++ resp.toolCalls }
          let results := resp.toolCalls.map (fun tc =>
            match executeTool tm tc with
            | .error e => ToolResult.mk tc.id [] e
            | .ok r => ToolResult.mk tc.id r "")
          runLoop client tm n { s₂ with toolResults := s₂.toolResults ++ results }

/-- Outcome of one `Workflow.ProcessMessage` call. -/
inductive Outcome where
  | ok (answer : String) (s : State)
  | failed (e : String) (s : State)
  | fuelOut (s : State)
deriving DecidableEq, Repr

/-- `Workflow.ProcessMessage`: append the user message, run the loop,
then return the trailing assistant message, or the `未找到有效的回复`
error when the history does not end with one. -/
def processMessage (client : LLMClient) (tm : ToolManager) (fuel : Nat)
    (userMessage : String) (init : State) : Outcome :=
  let s₀ := { init with messages := init.messages ++ [Message.mk "user" userMessage] }
  match runLoop client tm fuel s₀ with
  | .fuel s => .fuelOut s
  | .failed e s => .failed e s
  | .done s =>
    match s.messages.getLast? with
    | some m => if m.role = "assistant" then .ok m.content s else .failed "未找到有效的回复" s
    | none => .failed "未找到有效的回复" s

/-- Projection: the answer of a non-error outcome. -/
def Outcome.answer? : Outcome → Option String
  | .ok a _ => some a
  | _ => none

/-- Projection: did the loop run out of fuel (still iterating)? -/
def Outcome.isFuelOut : Outcome → Bool
  | .fuelOut _ => true
  | _ => false

/-- A model collaborator that answers every invocation with the same tool
call: the adversarial client of the termination claim. -/
def alwaysToolClient : LLMClient :=
  fun _ _ => .ok { content := "正在调用工具", toolCalls := [ToolCall.mk "call-1" "order_query_tool" []] }

end Graph

namespace Graph

/-- A client that first requests one call to the unregistered tool
`ghost` and, once a tool-role message is visible, answers without tool
calls. -/
def ghostClient : LLMClient :=
  fun msgs _ =>
    if msgs.any (fun m => m.role == "tool")
    then .ok { content := "最终答复", toolCalls := [] }
    else .ok { content := "调用工具", toolCalls := [ToolCall.mk "call-1" "ghost" []] }

end Graph

namespace Graph

/-- A client that completes immediately with empty content. -/
def emptyContentClient : LLMClient :=
  fun _ _ => .ok { content := "", toolCalls := [] }

/-- A client that completes immediately with a fixed greeting. -/
def helloClient : LLMClient :=
  fun _ _ => .ok { content := "你好！很高兴为您服务", toolCalls := [] }

end Graph

namespace Graph

/-- Projection: is the loop still running after the given fuel? -/
def LoopRes.isFuel : LoopRes → Bool
  | .fuel _ => true
  | _ => false

end Graph

namespace Conv

/-- A value stored in a session's `map[string]interface{}` context: the
covered code stores strings (`order_id`, `refund_reason`) and booleans
(`awaiting_refund_reason`). -/
inductive CtxVal where
  | s (v : String)
  | b (v : Bool)
deriving DecidableEq, Repr

/-- `conversation.Message` (`pkg/conversation/state.go`). -/
structure ConvMessage where
  role : String
  content : String
  timestamp : Int
  metadata : List (String × String) := []
deriving DecidableEq, Repr

/-- `conversation.ConversationState`. -/
structure ConvState where
  sessionID : String
  userID : String
  currentStep : String
  context : List (String × CtxVal)
  history : List ConvMessage
  lastActivity : Int
  createdAt : Int
deriving DecidableEq, Repr

/-- `StateManager.states`: the session table. -/
abbrev SM := List (String × ConvState)

/-- `StateManager.GetState`. -/
def smGet (sm : SM) (sid : String) : Option ConvState :=
  List.lookup sid sm

/-- The message of `conversation.ErrStateNotFound`. -/
def errStateNotFound : String := "conversation state not found"

/-- `StateManager.CreateState`: fresh session with `greeting` step, empty
context and history, both timestamps `now`. -/
def smCreate (sm : SM) (sid uid : String) (now : Int) : ConvState × SM :=
  let st : ConvState :=
    { sessionID := sid, userID := uid, currentStep := "greeting",
      context := [], history := [], lastActivity := now, createdAt := now }
  (st, aset sm sid st)

/-- `StateManager.UpdateState`: apply the mutation, then bump
`lastActivity`. -/
def smUpdate (sm : SM) (sid : String) (f : ConvState → ConvState) (now : Int) :
    Except String SM :=
  match List.lookup sid sm with
  | none => .error errStateNotFound
  | some st => .ok (aset sm sid { f st with lastActivity := now })

/-- `StateManager.AddMessage`. -/
def smAddMessage (sm : SM) (sid role content : String)
    (metadata : List (String × String)) (now : Int) : Except String SM :=
  smUpdate sm sid
    (fun st => { st with history := st.history ++ [ConvMessage.mk role content now metadata] })
    now

/-- `StateManager.SetCurrentStep`. -/
def smSetCurrentStep (sm : SM) (sid step : String) (now : Int) : Except String SM :=
  smUpdate sm sid (fun st => { st with currentStep := step }) now

/-- `StateManager.SetContext`. -/
def smSetContext (sm : SM) (sid key : String) (v : CtxVal) (now : Int) :
    Except String SM :=
  smUpdate sm sid (fun st => { st with context := aset st.context key v }) now

/-- `StateManager.GetContext`. -/
def smGetContext (sm : SM) (sid key : String) : Option CtxVal :=
  (smGet sm sid).bind fun st => List.lookup key st.context

/-- `Manager.GetOrCreateState`: return the existing session unchanged, or
create one. -/
def getOrCreateState (sm : SM) (sid uid : String) (now : Int) : ConvState × SM :=
  match smGet sm sid with
  | some st => (st, sm)
  | none => smCreate sm sid uid now

/-- `Manager.GetCurrentStep`. -/
def mgrGetCurrentStep (sm : SM) (sid : String) : Except String String :=
  match smGet sm sid with
  | none => .error errStateNotFound
  | some st => .ok st.currentStep

end Conv

namespace Conv

/-- Go RE2 `\w` (ASCII): `[0-9A-Za-z_]`. -/
def isWordChar (c : Char) : Bool := c.isAlphanum || c == '_'

/-- Does the text begin with the literal `ORD` followed by at least one
word character — i.e. can `ORD\w+` match at this position? -/
def startsORDw (l : List Char) : Bool :=
  match l with
  | c₀ :: c₁ :: c₂ :: c₃ :: _ => c₀ == 'O' && c₁ == 'R' && c₂ == 'D' && isWordChar c₃
  | _ => false

/-- The greedy `ORD\w+` token anchored at the head: `ORD` plus the
maximal following word-character run. -/
def takeORDw (l : List Char) : String :=
  String.mk (l.take 3 ++ (l.drop 3).takeWhile isWordChar)

/-- Leftmost match of `ORD\w+`, or `""`. -/
def exOID : List Char → String
  | [] => ""
  | c :: rest => if startsORDw (c :: rest) then takeORDw (c :: rest) else exOID rest

/-- `extractOrderID` of the step-machine file:
`regexp.MustCompile("ORD" + backslash-w-plus).FindStringSubmatch(text)`,
first match or `""`. -/
def extractOrderID (text : String) : String :=
  exOID text.toList

/-- The fixed reason vocabulary of `extractRefundReason`. -/
def refundReasons : List String := ["质量问题", "不想要了", "发错货", "损坏", "不符合描述"]

/-- `extractRefundReason`: the first listed reason phrase contained in the
text, else `""`. -/
def extractRefundReason (text : String) : String :=
  match refundReasons.find? (fun r => goContains text r) with
  | some r => r
  | none => ""

/-- `queryOrderStatus`: the mocked order status. -/
def queryOrderStatus (_orderID : String) : String :=
  "订单状态：已发货\n物流信息：顺丰快递，单号SF123456789\n预计送达：明天"

/-- `processRefundRequest` of the step-machine file: the mocked refund
submission result. -/
def processRefundRequestMock (_orderID reason : String) : String :=
  "退款申请已提交\n退款原因：" ++ reason ++ "\n处理状态：审核中\n预计完成时间：3-5个工作日"

/-- The `ConversationStep` interface: name, `Execute`, `CanTransition`. -/
structure Step where
  name : String
  exec : ConvState → String → Except String (String × ConvState)
  canTransition : ConvState → String → Bool

/-- `GreetingStep.Execute`. -/
def greetingExec (st : ConvState) (input : String) : Except String (String × ConvState) :=
  if goContains input "查订单" || goContains input "订单" then
    .ok ("请提供您的订单号，以便我为您查询订单信息。", { st with currentStep := "order_query" })
  else if goContains input "退款" || goContains input "退单" then
    .ok ("请提供您的订单号和退款原因，我将为您处理退款申请。",
      { st with currentStep := "refund_request" })
  else
    .ok ("您好！我是智能客服助手，可以帮您查询订单、处理退款等。请问有什么可以帮助您的？", st)

/-- `GreetingStep`. -/
def greetingStep : Step :=
  { name := "greeting", exec := greetingExec, canTransition := fun _ _ => false }

/-- `OrderQueryStep.Execute`. -/
def orderQueryExec (st : ConvState) (input : String) : Except String (String × ConvState) :=
  let orderID := extractOrderID input
  if orderID = "" then
    .ok ("抱歉，我没有找到有效的订单号。请提供您的订单号，格式通常为\x27ORD\x27开头的字符串。", st)
  else
    let st₁ := { st with context := aset st.context "order_id" (CtxVal.s orderID) }
    let st₂ := { st₁ with currentStep := "greeting" }
    .ok ("订单查询结果：\n订单号：" ++ orderID ++ "\n" ++ queryOrderStatus orderID, st₂)

/-- `OrderQueryStep`. -/
def orderQueryStep : Step :=
  { name := "order_query", exec := orderQueryExec,
    canTransition := fun st input =>
      st.currentStep != "order_query"
        && (goContains input "查订单" || goContains input "订单") }

/-- `RefundRequestStep.Execute`. -/
def refundRequestExec (st : ConvState) (input : String) :
    Except String (String × ConvState) :=
  let orderID := extractOrderID input
  if orderID = "" then
    .ok ("抱歉，我没有找到有效的订单号。请提供您的订单号，格式通常为\x27ORD\x27开头的字符串。", st)
  else
    let st₁ := { st with context := aset st.context "order_id" (CtxVal.s orderID) }
    let reason := extractRefundReason input
    if reason = "" then
      .ok ("请说明您的退款原因，例如：商品质量问题、不想要了、发错货等。",
        { st₁ with context := aset st₁.context "awaiting_refund_reason" (CtxVal.b true) })
    else
      let st₂ := { st₁ with context := aset st₁.context "refund_reason" (CtxVal.s reason) }
      let st₃ := { st₂ with context := adel st₂.context "awaiting_refund_reason" }
      .ok ("退款申请结果：\n订单号：" ++ orderID ++ "\n" ++ processRefundRequestMock orderID reason,
        { st₃ with currentStep := "greeting" })

/-- `RefundRequestStep`. -/
def refundRequestStep : Step :=
  { name := "refund_request", exec := refundRequestExec,
    canTransition := fun st input =>
      st.currentStep != "refund_request"
        && (goContains input "退款" || goContains input "退单") }

/-- `registerDefaultSteps`: the step registry.  Go iterates its step map
in unspecified order; registration order stands in for one such order
(the results proved below do not depend on it). -/
def defaultFlow : List Step := [greetingStep, orderQueryStep, refundRequestStep]

/-- `StepRegistry.Get`. -/
def findStep (flow : List Step) (name : String) : Option Step :=
  flow.find? (fun s => s.name == name)

/-- The post-`Execute` transition scan of `ConversationFlow.ProcessInput`:
the first other step whose `CanTransition` holds becomes current. -/
def applyTransition (flow : List Step) (st : ConvState) (input : String) : ConvState :=
  match flow.find? (fun s => s.name != st.currentStep && s.canTransition st input) with
  | some s => { st with currentStep := s.name }
  | none => st

/-- `ConversationFlow.ProcessInput`. -/
def processInput (flow : List Step) (st : ConvState) (input : String) :
    Except String (String × ConvState) :=
  match findStep flow st.currentStep with
  | none => .error ("未找到当前步骤: " ++ st.currentStep)
  | some step =>
    match step.exec st input with
    | .error e => .error ("执行步骤失败: " ++ e)
    | .ok (resp, st₁) => .ok (resp, applyTransition flow st₁ input)

/-- The names of the registered steps. -/
def stepNames : List String := ["greeting", "order_query", "refund_request"]

/-- Formalisation of the order-id pattern as the C6 claim words it (not
from the source): a non-empty run of uppercase letters immediately
followed by six or more digits occurs somewhere in the text. -/
def specClaimedTokenAux : List Char → Bool
  | [] => false
  | c :: rest =>
    (c.isUpper &&
      (let u := (c :: rest).takeWhile (fun d => d.isUpper)
       let ds := ((c :: rest).drop u.length).takeWhile (fun d => d.isDigit)
       decide (6 ≤ ds.length)))
    || specClaimedTokenAux rest

/-- Formalisation of the C6 claim's extraction pattern over strings. -/
def specClaimedOrderToken (s : String) : Bool :=
  specClaimedTokenAux s.toList

end Conv

namespace Conv

/-- `FindAllString` of the RE2 pattern `[A-Za-z]*` + 6-or-more digits:
successive leftmost matches, each a maximal letter run followed by a
maximal digit run of length at least six (letters and digits being
disjoint classes, the greedy automaton has nothing to backtrack over).
Fuel is the scanned length. -/
def mtScan : Nat → List Char → List String
  | 0, _ => []
  | _, [] => []
  | f + 1, c :: rest =>
    let letters := (c :: rest).takeWhile Char.isAlpha
    let afterL := (c :: rest).drop letters.length
    let digits := afterL.takeWhile Char.isDigit
    if 6 ≤ digits.length then
      String.mk (letters ++ digits) :: mtScan f (afterL.drop digits.length)
    else
      mtScan f rest

/-- `MultiTurnConversation.extractOrderID`: among the matches, the first
one containing `ORD` (case-insensitively) upper-cased; otherwise the
first match upper-cased; otherwise `""`. -/
def mtExtractOrderID (message : String) : String :=
  let ms := mtScan (message.toList.length + 1) message.toList
  match ms.find? (fun m => goContains (goToUpper m) "ORD") with
  | some m => goToUpper m
  | none =>
    match ms with
    | m :: _ => goToUpper m
    | [] => ""

/-- The order-intent keywords of `detectIntent`. -/
def orderKeywords : List String :=
  ["查订单", "查询订单", "订单状态", "我的订单", "查一下订单", "订单信息"]

/-- The refund-intent keywords of `detectIntent`. -/
def refundKeywords : List String :=
  ["退款", "退货", "申请退款", "我要退款", "怎么退款", "退款申请"]

/-- `MultiTurnConversation.detectIntent`. -/
def detectIntent (message : String) : String :=
  let lower := goToLower message
  if orderKeywords.any (fun k => goContains lower k) then "order_query"
  else if refundKeywords.any (fun k => goContains lower k) then "refund_request"
  else "general"

/-- `tools.Product`.  Money amounts are `float64` in the source but occur
only in formatted output no covered claim inspects; they are carried as
integer cents. -/
structure Product where
  id : String
  pname : String
  priceCents : Int
  quantity : Int
deriving DecidableEq, Repr

/-- `tools.OrderInfo`.  Optional timestamps model Go zero `time.Time`
values (`IsZero` checks in the source). -/
structure OrderInfo where
  orderID : String
  status : String
  createTime : Int
  payTime : Option Int
  shipTime : Option Int
  products : List Product
  totalAmountCents : Int
  shipAddress : String
  trackingInfo : String
  estDelivery : Option Int
deriving DecidableEq, Repr

/-- `QueryOrder.orders`: the mocked order table. -/
abbrev OrderDB := List (String × OrderInfo)

/-- `QueryOrder.initMockData`, with `t₀` the construction instant and
offsets in hours. -/
def mockOrders (t₀ : Int) : OrderDB :=
  [ ("ORD123456",
      { orderID := "ORD123456", status := "已发货", createTime := t₀ - 72,
        payTime := some (t₀ - 71), shipTime := some (t₀ - 24),
        products := [⟨"P001", "智能手表", 129900, 1⟩, ⟨"P002", "手机壳", 4900, 2⟩],
        totalAmountCents := 139700, shipAddress := "北京市朝阳区某某街道123号",
        trackingInfo := "顺丰快递，单号SF123456789", estDelivery := some (t₀ + 24) }),
    ("ORD789012",
      { orderID := "ORD789012", status := "已送达", createTime := t₀ - 120,
        payTime := some (t₀ - 119), shipTime := some (t₀ - 96),
        products := [⟨"P003", "蓝牙耳机", 39900, 1⟩],
        totalAmountCents := 39900, shipAddress := "上海市浦东新区某某路456号",
        trackingInfo := "顺丰快递，单号SF987654321", estDelivery := some (t₀ - 48) }),
    ("ORD345678",
      { orderID := "ORD345678", status := "待发货", createTime := t₀ - 12,
        payTime := some (t₀ - 11), shipTime := none,
        products := [⟨"P004", "平板电脑", 299900, 1⟩, ⟨"P005", "保护膜", 2900, 3⟩],
        totalAmountCents := 308600, shipAddress := "广州市天河区某某大道789号",
        trackingInfo := "暂无物流信息", estDelivery := some (t₀ + 48) }) ]

/-- `QueryOrder.Query` (the simulated latency is dropped). -/
def queryOrder (db : OrderDB) (orderID : String) : Except String OrderInfo :=
  match List.lookup orderID db with
  | none => .error ("订单不存在: " ++ orderID)
  | some o => .ok o

/-- Calendar rendering of a timestamp (Go `Format("2006-01-02 15:04:05")`),
abstracted; no covered claim inspects the rendered text. -/
def fmtTime (t : Int) : String := toString t

/-- `QueryOrder.FormatOrderInfo`; `tnow` is the `time.Now()` read by the
`EstDelivery.After` check. -/
def formatOrderInfo (tnow : Int) (o : OrderInfo) : String :=
  "订单号: " ++ o.orderID ++ "\n"
  ++ "订单状态: " ++ o.status ++ "\n"
  ++ "下单时间: " ++ fmtTime o.createTime ++ "\n"
  ++ (match o.payTime with | some t => "支付时间: " ++ fmtTime t ++ "\n" | none => "")
  ++ (match o.shipTime with | some t => "发货时间: " ++ fmtTime t ++ "\n" | none => "")
  ++ "\n商品列表:\n"
  ++ String.join (o.products.map (fun p =>
      "- " ++ p.pname ++ " (数量: " ++ toString p.quantity
        ++ ", 单价: " ++ toString p.priceCents ++ ")\n"))
  ++ "\n订单总额: " ++ toString o.totalAmountCents ++ "\n"
  ++ "收货地址: " ++ o.shipAddress ++ "\n"
  ++ (if o.trackingInfo ≠ "" then "物流信息: " ++ o.trackingInfo ++ "\n" else "")
  ++ (match o.estDelivery with
      | some t =>
        if tnow < t then "预计送达: " ++ fmtTime t ++ "\n" else "送达时间: " ++ fmtTime t ++ "\n"
      | none => "")

/-- `tools.RefundRequest`. -/
structure RefundRequest where
  orderID : String
  reason : String
  amountCents : Int
  requestTime : Int
  status : String
  requestID : String
  processTime : Option Int
  response : String
deriving DecidableEq, Repr

/-- `RefundTool.CheckRefundEligibility`.  An absent (`zero`)
`EstDelivery` makes Go's `time.Since` enormous, i.e. over the 7-day
window. -/
def checkRefundEligibility (db : OrderDB) (tnow : Int) (orderID : String) :
    Except String (Bool × String) :=
  match queryOrder db orderID with
  | .error e => .error ("查询订单失败: " ++ e)
  | .ok o =>
    match o.status with
    | "已送达" =>
      match o.estDelivery with
      | some est =>
        if 168 < tnow - est then .ok (false, "订单已超过7天退货期")
        else .ok (true, "订单在退货期内，可以申请退款")
      | none => .ok (false, "订单已超过7天退货期")
    | "已发货" => .ok (true, "订单已发货但未送达，可以申请退款")
    | "待发货" => .ok (true, "订单未发货，可以直接取消订单退款")
    | "已取消" => .ok (false, "订单已取消，无法再次退款")
    | _ => .ok (false, "当前订单状态不支持退款")

/-- `RefundTool.SubmitRefund`.  `refundNum` stands for the
`rand.Intn(100000)` draw; the insert into the mocked refunds table is
observable by no covered claim and the processing latency is dropped. -/
def submitRefund (db : OrderDB) (tnow : Int) (refundNum : Nat) (orderID reason : String) :
    Except String RefundRequest :=
  match checkRefundEligibility db tnow orderID with
  | .error e => .error e
  | .ok (eligible, msg) =>
    if !eligible then .error ("不符合退款条件: " ++ msg)
    else
      match queryOrder db orderID with
      | .error e => .error ("查询订单失败: " ++ e)
      | .ok o =>
        .ok { orderID := orderID, reason := reason, amountCents := o.totalAmountCents,
              requestTime := tnow, status := "处理中",
              requestID := "REF" ++ toString refundNum,
              processTime := none, response := "" }

/-- `RefundTool.FormatRefundInfo`. -/
def formatRefundInfo (r : RefundRequest) : String :=
  "退款申请号: " ++ r.requestID ++ "\n"
  ++ "关联订单号: " ++ r.orderID ++ "\n"
  ++ "退款金额: " ++ toString r.amountCents ++ "\n"
  ++ "申请原因: " ++ r.reason ++ "\n"
  ++ "申请时间: " ++ fmtTime r.requestTime ++ "\n"
  ++ "处理状态: " ++ r.status ++ "\n"
  ++ (match r.processTime with | some t => "处理时间: " ++ fmtTime t ++ "\n" | none => "")
  ++ (if r.response ≠ "" then "处理结果: " ++ r.response ++ "\n" else "")

/-- The collaborators and clock of one `MultiTurnConversation` turn: the
order store, the instant every `time.Now()` in the turn reads (they fall
within the same turn), the refund-id draw, and the general-chat model
chain. -/
structure MTEnv where
  orders : OrderDB
  tnow : Int
  refundNum : Nat
  chat : String → Except String String

/-- A Go `.(string)` type assertion on a context value; the panic on a
non-string value is modelled as an error (unreachable on covered paths,
which only store strings under the asserted keys). -/
def ctxString : CtxVal → Except String String
  | .s v => .ok v
  | .b _ => .error "interface conversion failure"

/-- `MultiTurnConversation.processOrderQuery`. -/
def mtProcessOrderQuery (env : MTEnv) (sm : SM) (sid orderID : String) :
    Except String (String × SM) :=
  match queryOrder env.orders orderID with
  | .error e => .ok ("查询订单失败: " ++ e, sm)
  | .ok o =>
    let formatted := formatOrderInfo env.tnow o
    match smSetCurrentStep sm sid "greeting" env.tnow with
    | .error e => .error ("重置对话步骤失败: " ++ e)
    | .ok sm₁ =>
      .ok ("查询成功！以下是您的订单信息：\n\n" ++ formatted ++ "\n\n还有其他可以帮助您的吗？", sm₁)

/-- `MultiTurnConversation.startOrderQuery`. -/
def mtStartOrderQuery (env : MTEnv) (sm : SM) (sid : String) :
    Except String (String × SM) :=
  match smSetCurrentStep sm sid "order_query" env.tnow with
  | .error e => .error ("设置当前步骤失败: " ++ e)
  | .ok sm₁ =>
    match smGet sm₁ sid with
    | none => .error ("获取状态失败: " ++ errStateNotFound)
    | some st =>
      match List.lookup "order_id" st.context with
      | some v =>
        match ctxString v with
        | .error e => .error e
        | .ok oid => mtProcessOrderQuery env sm₁ sid oid
      | none => .ok ("好的，我可以帮您查询订单信息。请提供您的订单号，通常以\x27ORD\x27开头。", sm₁)

/-- `MultiTurnConversation.handleOrderQueryStep`. -/
def mtHandleOrderQueryStep (env : MTEnv) (sm : SM) (sid message : String) :
    Except String (String × SM) :=
  let orderID := mtExtractOrderID message
  if orderID = "" then
    .ok ("抱歉，我没有找到有效的订单号。请提供您的订单号，通常以\x27ORD\x27开头。", sm)
  else
    match smSetContext sm sid "order_id" (CtxVal.s orderID) env.tnow with
    | .error e => .error ("保存订单号失败: " ++ e)
    | .ok sm₁ => mtProcessOrderQuery env sm₁ sid orderID

/-- `MultiTurnConversation.processRefundRequest`. -/
def mtProcessRefundRequest (env : MTEnv) (sm : SM) (sid orderID reason : String) :
    Except String (String × SM) :=
  match submitRefund env.orders env.tnow env.refundNum orderID reason with
  | .error e => .ok ("退款申请失败: " ++ e, sm)
  | .ok refund =>
    let formatted := formatRefundInfo refund
    match smSetCurrentStep sm sid "greeting" env.tnow with
    | .error e => .error ("重置对话步骤失败: " ++ e)
    | .ok sm₁ =>
      .ok ("退款申请已提交！以下是您的申请信息：\n\n" ++ formatted ++ "\n\n还有其他可以帮助您的吗？", sm₁)

/-- `MultiTurnConversation.startRefundRequest`. -/
def mtStartRefundRequest (env : MTEnv) (sm : SM) (sid : String) :
    Except String (String × SM) :=
  match smSetCurrentStep sm sid "refund_request" env.tnow with
  | .error e => .error ("设置当前步骤失败: " ++ e)
  | .ok sm₁ =>
    match smGet sm₁ sid with
    | none => .error ("获取状态失败: " ++ errStateNotFound)
    | some st =>
      match List.lookup "order_id" st.context with
      | some oidv =>
        match List.lookup "refund_reason" st.context with
        | some rv =>
          match ctxString oidv with
          | .error e => .error e
          | .ok oid =>
            match ctxString rv with
            | .error e => .error e
            | .ok r => mtProcessRefundRequest env sm₁ sid oid r
        | none =>
          match ctxString oidv with
          | .error e => .error e
          | .ok oid =>
            .ok ("好的，您要为订单 " ++ oid ++ " 申请退款。请告诉我退款原因，例如：商品质量问题、不想要了等。", sm₁)
      | none => .ok ("好的，我可以帮您处理退款申请。请提供您的订单号，通常以\x27ORD\x27开头。", sm₁)

/-- `MultiTurnConversation.handleRefundRequestStep`. -/
def mtHandleRefundRequestStep (env : MTEnv) (sm : SM) (sid message : String) :
    Except String (String × SM) :=
  match smGet sm sid with
  | none => .error ("获取状态失败: " ++ errStateNotFound)
  | some st =>
    match List.lookup "order_id" st.context with
    | none =>
      let orderID := mtExtractOrderID message
      if orderID = "" then
        .ok ("抱歉，我没有找到有效的订单号。请提供您的订单号，通常以\x27ORD\x27开头。", sm)
      else
        match smSetContext sm sid "order_id" (CtxVal.s orderID) env.tnow with
        | .error e => .error ("保存订单号失败: " ++ e)
        | .ok sm₁ =>
          .ok ("好的，您要为订单 " ++ orderID ++ " 申请退款。请告诉我退款原因，例如：商品质量问题、不想要了等。", sm₁)
    | some oidv =>
      match List.lookup "refund_reason" st.context with
      | none =>
        match smSetContext sm sid "refund_reason" (CtxVal.s message) env.tnow with
        | .error e => .error ("保存退款原因失败: " ++ e)
        | .ok sm₁ =>
          match ctxString oidv with
          | .error e => .error e
          | .ok oid => mtProcessRefundRequest env sm₁ sid oid message
      | some _ =>
        .ok ("您已经提交了退款申请，正在处理中。请稍等片刻，或者您可以提供新的订单号来申请其他订单的退款。", sm)

/-- `MultiTurnConversation.handleGreetingStep`. -/
def mtHandleGreetingStep (env : MTEnv) (sm : SM) (sid message : String) :
    Except String (String × SM) :=
  match detectIntent message with
  | "order_query" => mtStartOrderQuery env sm sid
  | "refund_request" => mtStartRefundRequest env sm sid
  | _ => .ok ("您好！我是智能客服助手，可以帮助您查询订单信息、处理退款申请等。请问有什么可以帮助您的吗？", sm)

/-- `MultiTurnConversation.handleGeneralChat`: the eino chain around the
chat model is the external collaborator `env.chat`. -/
def mtHandleGeneralChat (env : MTEnv) (_sid message : String) : Except String String :=
  env.chat message

/-- `MultiTurnConversation.ProcessMessage`. -/
def mtProcessMessage (env : MTEnv) (sm : SM) (sid userMessage : String) :
    Except String (String × SM) :=
  let sm₁ := (getOrCreateState sm sid "default_user" env.tnow).2
  match smAddMessage sm₁ sid "user" userMessage [] env.tnow with
  | .error e => .error ("添加用户消息失败: " ++ e)
  | .ok sm₂ =>
    let step :=
      match mgrGetCurrentStep sm₂ sid with
      | .ok s => s
      | .error _ => "greeting"
    let handled : Except String (String × SM) :=
      match step with
      | "greeting" => mtHandleGreetingStep env sm₂ sid userMessage
      | "order_query" => mtHandleOrderQueryStep env sm₂ sid userMessage
      | "refund_request" => mtHandleRefundRequestStep env sm₂ sid userMessage
      | _ =>
        match detectIntent userMessage with
        | "order_query" => mtStartOrderQuery env sm₂ sid
        | "refund_request" => mtStartRefundRequest env sm₂ sid
        | _ =>
          match mtHandleGeneralChat env sid userMessage with
          | .error e => .error e
          | .ok r => .ok (r, sm₂)
    match handled with
    | .error e => .error e
    | .ok (resp, sm₃) =>
      match smAddMessage sm₃ sid "assistant" resp [] env.tnow with
      | .error e => .error ("添加助手消息失败: " ++ e)
      | .ok sm₄ => .ok (resp, sm₄)

/-- The C3 scenario environment: store built at instant 0, all three
turns at instant 0, refund draw 0; the general-chat model is never
reached on this path. -/
def c3env : MTEnv :=
  { orders := mockOrders 0, tnow := 0, refundNum := 0, chat := fun _ => .ok "" }

/-- C3 scenario, turn 1. -/
def c3turn1 : Except String (String × SM) :=
  mtProcessMessage c3env [] "s1" "我要退款"

/-- C3 scenario, turn 2. -/
def c3turn2 : Except String (String × SM) :=
  c3turn1.bind (fun p => mtProcessMessage c3env p.2 "s1" "ORD789012")

/-- C3 scenario, turn 3. -/
def c3turn3 : Except String (String × SM) :=
  c3turn2.bind (fun p => mtProcessMessage c3env p.2 "s1" "质量问题")

/-- Projection: the response of a successful turn. -/
def respOf : Except String (String × SM) → Option String
  | .ok (r, _) => some r
  | .error _ => none

/-- Projection: session `s1`'s step after the third turn. -/
def c3finalStep : Option String :=
  match c3turn3 with
  | .ok (_, sm) => (smGet sm "s1").map (fun st => st.currentStep)
  | .error _ => none

end Conv

namespace Plug

/-- `plugin.ToolInfo`: the reflected method value is carried as an
abstract handle. -/
structure ToolInfo where
  tname : String
  descr : String
  fn : Nat
deriving DecidableEq, Repr

/-- `plugin.PluginInfo` (the resident `plugin.Plugin` handle is owned by
the table entry and carries no observable structure). -/
structure PluginInfo where
  pname : String
  path : String
  tools : List ToolInfo
deriving DecidableEq, Repr

/-- `PluginManager`: the module table and the derived-function index
(`plugins` and `pluginFunctions`). -/
structure PM where
  plugins : List (String × PluginInfo)
  functions : List (String × Nat)
deriving DecidableEq, Repr

/-- The host environment seen by `LoadPlugin`: `plugin.Open`, the
`NewPlugin` symbol lookup, its type assertion and the reflective
`extractTools` walk, collapsed into one oracle from artifact path to
derived tools (or the failure any of those stages reports). -/
abbrev PluginEnv := String → Except String (List ToolInfo)

/-- `PluginManager.LoadPlugin`, sequential model (the mutex is dropped
here; every operation is atomic).  On failure the manager is unchanged,
matching the Go code, whose writes all follow its checks. -/
def loadPlugin (env : PluginEnv) (pm : PM) (pluginName pluginPath : String) :
    PM × Option String :=
  match List.lookup pluginName pm.plugins with
  | some _ => (pm, some ("插件 " ++ pluginName ++ " 已加载"))
  | none =>
    match env pluginPath with
    | .error e => (pm, some e)
    | .ok tools =>
      ({ plugins := aset pm.plugins pluginName (PluginInfo.mk pluginName pluginPath tools),
         functions := tools.foldl
           (fun fs t => aset fs (pluginName ++ "." ++ t.tname) t.fn) pm.functions },
       none)

/-- `PluginManager.UnloadPlugin`: drop every derived function reference,
then the table entry. -/
def unloadPlugin (pm : PM) (pluginName : String) : PM × Option String :=
  match List.lookup pluginName pm.plugins with
  | none => (pm, some ("插件 " ++ pluginName ++ " 不存在"))
  | some info =>
    ({ plugins := adel pm.plugins pluginName,
       functions := info.tools.foldl
         (fun fs t => adel fs (pluginName ++ "." ++ t.tname)) pm.functions },
     none)

/-- `PluginManager.ReloadPlugin`: deletes the old function references and
then calls `LoadPlugin` at the recorded path — without first removing the
module from the plugin table.  (In the running binary the inner call also
re-acquires the non-reentrant mutex the outer call is holding.) -/
def reloadPlugin (env : PluginEnv) (pm : PM) (pluginName : String) : PM × Option String :=
  match List.lookup pluginName pm.plugins with
  | none => (pm, some ("插件 " ++ pluginName ++ " 不存在"))
  | some info =>
    let pm₁ : PM :=
      { pm with
          functions := info.tools.foldl
            (fun fs t => adel fs (pluginName ++ "." ++ t.tname)) pm.functions }
    match loadPlugin env pm₁ pluginName info.path with
    | (pm₂, some e) => (pm₂, some ("重新加载插件失败: " ++ e))
    | (pm₂, none) => (pm₂, none)

/-- A one-plugin environment for the C4 evaluation. -/
def c4env : PluginEnv := fun _ => .ok [ToolInfo.mk "Add" "工具函数: Add" 1]

/-- A manager that has loaded `mathtool` through `LoadPlugin`. -/
def c4pm : PM := (loadPlugin c4env (PM.mk [] []) "mathtool" "/plugins/mathtool.so").1

end Plug

theorem lookup_aset_self {α : Type} (l : List (String × α)) (k : String) (v : α) :
    List.lookup k (aset l k v) = some v := by
  induction l with
  | nil => simp [aset, List.lookup]
  | cons hd tl ih =>
    obtain ⟨k₁, v₁⟩ := hd
    by_cases h : k₁ = k
    · simp [aset, h, List.lookup]
    · simp only [aset, if_neg h, List.lookup]
      have : (k == k₁) = false := by
        simp [beq_iff_eq]
        exact fun hk => h hk.symm
      simp [this, ih]

theorem lookup_adel_self {α : Type} (l : List (String × α)) (k : String) :
    List.lookup k (adel l k) = none := by
  induction l with
  | nil => simp [adel]
  | cons hd tl ih =>
    obtain ⟨k₁, v₁⟩ := hd
    by_cases h : k₁ = k
    · simpa [adel, h] using ih
    · have : (k == k₁) = false := by
        simp [beq_iff_eq]
        exact fun hk => h hk.symm
      simpa [adel, h, List.lookup, this] using ih

/-- C5: registering a tool named `n` and then immediately registering
another tool named `n` fails with the duplicate-name error and leaves the
first registration in place; registering `n`, unregistering `n`, and
registering `n` again succeeds. -/
theorem c5_register_unregister (r : Reg.Registry) (t t₂ : Reg.GTool) (n : String)
    (ht : t.name = n) (ht₂ : t₂.name = n) (hne : n ≠ "")
    (habs : List.lookup n r = none) :
    (∃ r₁, Reg.registerTool r t = .ok r₁ ∧
      Reg.registerTool r₁ t₂ =
        .error ("tool with name \x27" ++ n ++ "\x27 already registered") ∧
      Reg.getTool r₁ n = some t) ∧
    (∃ r₁ r₂ r₃, Reg.registerTool r t = .ok r₁ ∧
      Reg.unregisterTool r₁ n = .ok r₂ ∧ Reg.registerTool r₂ t₂ = .ok r₃) := by
  have h₁ : Reg.registerTool r t = .ok (aset r n t) := by
    rw [Reg.registerTool, ht, if_neg hne, habs]
  have hlook : List.lookup n (aset r n t) = some t := lookup_aset_self r n t
  refine ⟨⟨aset r n t, h₁, ?_, ?_⟩, ?_⟩
  · rw [Reg.registerTool, ht₂, if_neg hne, hlook]
  · exact hlook
  · refine ⟨aset r n t, adel (aset r n t) n,
      aset (adel (aset r n t) n) n t₂, h₁, ?_, ?_⟩
    · rw [Reg.unregisterTool, hlook]
    · rw [Reg.registerTool, ht₂, if_neg hne, lookup_adel_self]

/-- C5 witness: the property at a concrete registry and tools. -/
theorem c5_register_unregister_w :
    (∃ r₁, Reg.registerTool [] ⟨"echo", "d1", [], fun a => .ok a⟩ = .ok r₁ ∧
      Reg.registerTool r₁ ⟨"echo", "d2", [], fun _ => .ok []⟩ =
        .error ("tool with name \x27" ++ "echo" ++ "\x27 already registered") ∧
      Reg.getTool r₁ "echo" = some ⟨"echo", "d1", [], fun a => .ok a⟩) ∧
    (∃ r₁ r₂ r₃, Reg.registerTool [] ⟨"echo", "d1", [], fun a => .ok a⟩ = .ok r₁ ∧
      Reg.unregisterTool r₁ "echo" = .ok r₂ ∧
      Reg.registerTool r₂ ⟨"echo", "d2", [], fun _ => .ok []⟩ = .ok r₃) :=
  c5_register_unregister [] ⟨"echo", "d1", [], fun a => .ok a⟩
    ⟨"echo", "d2", [], fun _ => .ok []⟩ "echo" rfl rfl (by decide) rfl

namespace Graph

/-- Against `alwaysToolClient` the loop never leaves the running state:
every iteration appends tool results and re-enters, since `IsComplete` is
set only on a response without tool calls. -/
theorem runLoop_alwaysTool_fuel (tm : ToolManager) :
    ∀ (n : Nat) (s : State), s.isComplete = false →
      (runLoop alwaysToolClient tm n s).isFuel = true := by
  intro n
  induction n with
  | zero => intro s _; rfl
  | succ k ih =>
    intro s hs
    simp only [runLoop, hs, callModel, alwaysToolClient, Bool.false_eq_true,
      if_false, List.isEmpty_cons]
    exact ih _ rfl

end Graph

/-- C1: the source loop of `Workflow.ProcessMessage` has no iteration
bound: against a model collaborator that returns a tool call on every
invocation, the loop is still running after any number of iterations, for
every tool manager and user message — it never terminates, with or
without a `ToolLoopExceeded` condition (no such condition exists in the
code). -/
theorem c1_loop_never_terminates (tm : Graph.ToolManager) (fuel : Nat) (msg : String) :
    (Graph.processMessage Graph.alwaysToolClient tm fuel msg Graph.freshState).isFuelOut
      = true := by
  unfold Graph.processMessage
  have h := Graph.runLoop_alwaysTool_fuel tm fuel
    { Graph.freshState with
        messages := Graph.freshState.messages ++ [Graph.Message.mk "user" msg] }
    rfl
  cases hr : Graph.runLoop Graph.alwaysToolClient tm fuel
      { Graph.freshState with
          messages := Graph.freshState.messages ++ [Graph.Message.mk "user" msg] } with
  | done s => rw [hr] at h; exact absurd h (by simp [Graph.LoopRes.isFuel])
  | failed e s => rw [hr] at h; exact absurd h (by simp [Graph.LoopRes.isFuel])
  | fuel s => simp [hr, Graph.Outcome.isFuelOut]

/-- The error note produced for an unregistered tool is never the empty
string, so `callModel` renders it as an explicit error message. -/
theorem tool_missing_error_ne_empty (n : String) : ("工具不存在: " ++ n) ≠ "" := by
  intro h
  have hlen := congrArg String.length h
  rw [String.length_append] at hlen
  have h₇ : ("工具不存在: ").length = 7 := rfl
  have h₀ : ("" : String).length = 0 := rfl
  rw [h₇, h₀] at hlen
  omega

set_option maxRecDepth 8000 in
/-- C2: a tool call naming an unregistered tool does not abort the turn:
the workflow records a tool result carrying exactly the lookup error
string, renders it into the message list of the next model invocation,
and when that invocation returns no tool calls the turn still ends with
the model's final answer. -/
theorem c2_unknown_tool_recovered (tm : Graph.ToolManager) (client : Graph.LLMClient)
    (n id c₁ c₂ u : String) (args : Reg.ArgMap)
    (hn : Reg.getTool tm n = none)
    (h₁ : client (Graph.buildMessages tm { messages := [Graph.Message.mk "user" u] })
        (Graph.toolDefs tm) = .ok { content := c₁, toolCalls := [Graph.ToolCall.mk id n args] })
    (h₂ : client (Graph.buildMessages tm
          { messages := [Graph.Message.mk "user" u, Graph.Message.mk "assistant" c₁],
            toolCalls := [Graph.ToolCall.mk id n args],
            toolResults := [Graph.ToolResult.mk id [] ("工具不存在: " ++ n)] })
        (Graph.toolDefs tm) = .ok { content := c₂, toolCalls := [] }) :
    (Graph.processMessage client tm 3 u Graph.freshState).answer? = some c₂ ∧
      Graph.Message.mk "tool" ("工具执行出错: " ++ ("工具不存在: " ++ n)) ∈
        Graph.buildMessages tm
          { messages := [Graph.Message.mk "user" u, Graph.Message.mk "assistant" c₁],
            toolCalls := [Graph.ToolCall.mk id n args],
            toolResults := [Graph.ToolResult.mk id [] ("工具不存在: " ++ n)] } := by
  have hexec : Graph.executeTool tm (Graph.ToolCall.mk id n args) =
      .error ("工具不存在: " ++ n) := by
    simp [Graph.executeTool, hn]
  constructor
  · simp only [Graph.processMessage, Graph.runLoop, Graph.callModel, Graph.freshState,
      List.nil_append, Bool.false_eq_true, if_false]
    rw [h₁]
    simp only [List.isEmpty_cons, Bool.false_eq_true, if_false, List.map_cons, List.map_nil,
      hexec, List.nil_append, List.cons_append, List.append_nil]
    rw [h₂]
    simp [Graph.Outcome.answer?, List.getLast?]
  · simp [Graph.buildMessages, tool_missing_error_ne_empty n]

/-- C2 witness: the recovery at a concrete empty registry and client. -/
theorem c2_unknown_tool_recovered_w :
    (Graph.processMessage Graph.ghostClient [] 3 "你好" Graph.freshState).answer?
        = some "最终答复" ∧
      Graph.Message.mk "tool" ("工具执行出错: " ++ ("工具不存在: " ++ "ghost")) ∈
        Graph.buildMessages []
          { messages := [Graph.Message.mk "user" "你好", Graph.Message.mk "assistant" "调用工具"],
            toolCalls := [Graph.ToolCall.mk "call-1" "ghost" []],
            toolResults := [Graph.ToolResult.mk "call-1" [] ("工具不存在: " ++ "ghost")] } :=
  c2_unknown_tool_recovered [] Graph.ghostClient "ghost" "call-1" "调用工具" "最终答复"
    "你好" [] rfl rfl rfl

namespace Graph

/-- A completed state is returned unchanged by the loop. -/
theorem runLoop_complete (client : LLMClient) (tm : ToolManager) (n : Nat) (s : State)
    (hs : s.isComplete = true) : runLoop client tm (n + 1) s = .done s := by
  simp [runLoop, hs]

/-- When the loop starts incomplete and exits normally, the final history
ends with an assistant message whose content came from a client response;
if the client never produces empty content, that content is non-empty. -/
theorem runLoop_done_last (client : LLMClient) (tm : ToolManager)
    (hne : ∀ msgs tds r, client msgs tds = .ok r → r.content ≠ "") :
    ∀ (n : Nat) (s s₂ : State), s.isComplete = false → runLoop client tm n s = .done s₂ →
      ∃ c, s₂.messages.getLast? = some (Message.mk "assistant" c) ∧ c ≠ "" := by
  intro n
  induction n with
  | zero => intro s s₂ _ h; simp [runLoop] at h
  | succ k ih =>
    intro s s₂ hs h
    simp only [runLoop, hs, Bool.false_eq_true, if_false] at h
    split at h
    · simp at h
    · rename_i resp hc
      split at h
      · cases k with
        | zero => simp [runLoop] at h
        | succ m =>
          rw [runLoop_complete client tm m _ rfl] at h
          cases h
          exact ⟨resp.content, by simp [List.getLast?_concat], hne _ _ _ hc⟩
      · exact ih _ s₂ rfl h

end Graph

/-- C9 counterexample: with a model that immediately answers with empty
content and no tool calls, `Workflow.ProcessMessage` returns without
error and its result is the empty string — the loop does silently return
an empty response. -/
theorem c9_empty_answer_cex :
    (Graph.processMessage Graph.emptyContentClient [] 2 "你好" Graph.freshState).answer?
      = some "" := rfl

/-- C9 amended: when `Workflow.ProcessMessage` returns without error its
result is the content of the final assistant message, so it is non-empty
provided the model collaborator never returns empty content; the code
itself does not guard against an empty model answer. -/
theorem c9_nonempty_answer (client : Graph.LLMClient) (tm : Graph.ToolManager)
    (fuel : Nat) (u : String) (init : Graph.State) (a : String)
    (hne : ∀ msgs tds r, client msgs tds = .ok r → r.content ≠ "")
    (h : (Graph.processMessage client tm fuel u init).answer? = some a) : a ≠ "" := by
  simp only [Graph.processMessage] at h
  cases hr : Graph.runLoop client tm fuel
      { init with messages := init.messages ++ [Graph.Message.mk "user" u] } with
  | fuel s => rw [hr] at h; simp [Graph.Outcome.answer?] at h
  | failed e s => rw [hr] at h; simp [Graph.Outcome.answer?] at h
  | done s =>
    rw [hr] at h
    by_cases hc : init.isComplete = true
    · cases fuel with
      | zero => simp [Graph.runLoop] at hr
      | succ k =>
        rw [Graph.runLoop_complete client tm k
          { init with messages := init.messages ++ [Graph.Message.mk "user" u] } hc] at hr
        cases hr
        simp [List.getLast?_concat, Graph.Outcome.answer?] at h
    · have hcf : init.isComplete = false := by simpa using hc
      obtain ⟨c, hlast, hcne⟩ :=
        Graph.runLoop_done_last client tm hne fuel
          { init with messages := init.messages ++ [Graph.Message.mk "user" u] } s hcf hr
      simp [hlast, Graph.Outcome.answer?] at h
      rw [← h]
      exact hcne

/-- C9 witness: a concrete non-empty-content client yields a concrete
non-empty answer. -/
theorem c9_nonempty_answer_w :
    (Graph.processMessage Graph.helloClient [] 2 "hi" Graph.freshState).answer?
        = some "你好！很高兴为您服务" ∧ "你好！很高兴为您服务" ≠ "" :=
  ⟨rfl, c9_nonempty_answer Graph.helloClient [] 2 "hi" Graph.freshState "你好！很高兴为您服务"
    (fun _ _ r h => by cases h; decide) rfl⟩

/-- C7: `getOrCreate` on an unseen session id builds a session with
`currentStep = "greeting"`, empty context, empty history and both
timestamps equal to now; on a present id it returns the existing session
unchanged, touching nothing. -/
theorem c7_get_or_create (sm : Conv.SM) (sid uid : String) (now : Int) :
    (Conv.smGet sm sid = none →
      (Conv.getOrCreateState sm sid uid now).1.currentStep = "greeting" ∧
      (Conv.getOrCreateState sm sid uid now).1.context = [] ∧
      (Conv.getOrCreateState sm sid uid now).1.history = [] ∧
      (Conv.getOrCreateState sm sid uid now).1.createdAt = now ∧
      (Conv.getOrCreateState sm sid uid now).1.lastActivity = now) ∧
    (∀ st, Conv.smGet sm sid = some st →
      Conv.getOrCreateState sm sid uid now = (st, sm)) := by
  constructor
  · intro h
    simp [Conv.getOrCreateState, h, Conv.smCreate]
  · intro st h
    simp [Conv.getOrCreateState, h]

/-- C7 witness: creation on an empty store, and an untouched lookup on a
one-session store. -/
theorem c7_get_or_create_w :
    ((Conv.getOrCreateState [] "s1" "u1" 5).1.currentStep = "greeting" ∧
      (Conv.getOrCreateState [] "s1" "u1" 5).1.context = [] ∧
      (Conv.getOrCreateState [] "s1" "u1" 5).1.history = [] ∧
      (Conv.getOrCreateState [] "s1" "u1" 5).1.createdAt = 5 ∧
      (Conv.getOrCreateState [] "s1" "u1" 5).1.lastActivity = 5) ∧
    Conv.getOrCreateState [("s1", Conv.ConvState.mk "s1" "u1" "order_query" [] [] 7 5)]
        "s1" "u2" 9
      = (Conv.ConvState.mk "s1" "u1" "order_query" [] [] 7 5,
          [("s1", Conv.ConvState.mk "s1" "u1" "order_query" [] [] 7 5)]) :=
  ⟨(c7_get_or_create [] "s1" "u1" 5).1 rfl,
    (c7_get_or_create [("s1", Conv.ConvState.mk "s1" "u1" "order_query" [] [] 7 5)]
      "s1" "u2" 9).2 _ rfl⟩

/-- C3: for a fresh session `s1` in the greeting step, the three turns
`我要退款`, `ORD789012`, `质量问题` through
`MultiTurnConversation.ProcessMessage` yield, in order, the prompt for
the order id, the prompt for the refund reason, and the refund-submission
confirmation, with `currentStep` back at `greeting`. -/
theorem c3_refund_scenario :
    Conv.respOf Conv.c3turn1
        = some "好的，我可以帮您处理退款申请。请提供您的订单号，通常以\x27ORD\x27开头。" ∧
      Conv.respOf Conv.c3turn2
        = some "好的，您要为订单 ORD789012 申请退款。请告诉我退款原因，例如：商品质量问题、不想要了等。" ∧
      goHasPrefix ((Conv.respOf Conv.c3turn3).getD "") "退款申请已提交" = true ∧
      Conv.c3finalStep = some "greeting" :=
  ⟨by rfl, by rfl, by rfl, by rfl⟩

/-- C6 counterexample: the claimed pattern (an uppercase-letter run
immediately followed by six or more digits, upper-normalized) matches
neither extraction the code performs: `AB123456` fits the claimed pattern
yet the `order_query` step extracts nothing, re-prompts and stays in
`order_query`; and the multi-turn variant extracts `123456`, which has no
uppercase-letter run at all. -/
theorem c6_pattern_cex :
    Conv.specClaimedOrderToken "AB123456" = true ∧
      Conv.extractOrderID "AB123456" = "" ∧
      Conv.orderQueryExec (Conv.ConvState.mk "s1" "u1" "order_query" [] [] 0 0) "AB123456"
        = .ok ("抱歉，我没有找到有效的订单号。请提供您的订单号，格式通常为\x27ORD\x27开头的字符串。",
            Conv.ConvState.mk "s1" "u1" "order_query" [] [] 0 0) ∧
      Conv.specClaimedOrderToken "123456" = false ∧
      Conv.mtExtractOrderID "123456" = "123456" :=
  ⟨by rfl, by rfl, by rfl, by rfl, by rfl⟩

/-- Every non-empty `extractOrderID` result is the literal `ORD` followed
by a non-empty run of word characters. -/
theorem exOID_shape (l : List Char) :
    Conv.exOID l = "" ∨
      ((Conv.exOID l).toList.take 3 = ['O', 'R', 'D'] ∧
        ((Conv.exOID l).toList.drop 3).all Conv.isWordChar = true ∧
        (Conv.exOID l).toList.drop 3 ≠ []) := by
  induction l with
  | nil => left; rfl
  | cons c rest ih =>
    by_cases h : Conv.startsORDw (c :: rest) = true
    · right
      have he : Conv.exOID (c :: rest) = Conv.takeORDw (c :: rest) := by
        simp only [Conv.exOID, h, if_true]
      rw [he]
      rcases rest with _ | ⟨c₁, rest₁⟩
      · simp [Conv.startsORDw] at h
      rcases rest₁ with _ | ⟨c₂, rest₂⟩
      · simp [Conv.startsORDw] at h
      rcases rest₂ with _ | ⟨c₃, r⟩
      · simp [Conv.startsORDw] at h
      simp only [Conv.startsORDw, Bool.and_eq_true, beq_iff_eq] at h
      obtain ⟨⟨⟨hO, hR⟩, hD⟩, hw⟩ := h
      subst hO hR hD
      refine ⟨rfl, ?_, ?_⟩
      · exact List.all_eq_true.mpr (fun x hx => List.mem_takeWhile_imp hx)
      · show List.takeWhile Conv.isWordChar (c₃ :: r) ≠ []
        simp [List.takeWhile_cons, hw]
    · have hf : Conv.startsORDw (c :: rest) = false := by simpa using h
      have he : Conv.exOID (c :: rest) = Conv.exOID rest := by
        simp only [Conv.exOID, hf, Bool.false_eq_true, if_false]
      rw [he]
      exact ih

/-- C6 amended: the `order_query` step extracts the leftmost token of the
form literal `ORD` followed by one or more word characters (no six-digit
requirement, no case normalization); with no such token it re-prompts
leaving the session untouched, and with one it stores the token under
`order_id`, performs the mocked lookup and sets `currentStep` back to
`greeting`. -/
theorem c6_order_step_behavior (st : Conv.ConvState) (input : String) :
    (Conv.extractOrderID input = "" →
      Conv.orderQueryExec st input =
        .ok ("抱歉，我没有找到有效的订单号。请提供您的订单号，格式通常为\x27ORD\x27开头的字符串。", st)) ∧
    (Conv.extractOrderID input ≠ "" →
      Conv.orderQueryExec st input =
        .ok ("订单查询结果：\n订单号：" ++ Conv.extractOrderID input ++ "\n"
              ++ Conv.queryOrderStatus (Conv.extractOrderID input),
          { st with
              context := aset st.context "order_id" (Conv.CtxVal.s (Conv.extractOrderID input)),
              currentStep := "greeting" })) ∧
    (Conv.extractOrderID input ≠ "" →
      (Conv.extractOrderID input).toList.take 3 = ['O', 'R', 'D'] ∧
      ((Conv.extractOrderID input).toList.drop 3).all Conv.isWordChar = true ∧
      (Conv.extractOrderID input).toList.drop 3 ≠ []) := by
  refine ⟨?_, ?_, ?_⟩
  · intro h
    simp [Conv.orderQueryExec, h]
  · intro h
    simp [Conv.orderQueryExec, h]
  · intro h
    rcases exOID_shape input.toList with he | he
    · exact absurd he h
    · exact he

/-- C6 witness: the spec's own example input `ORD123456 查询` extracts
`ORD123456`, stores it and transitions back to `greeting`. -/
theorem c6_order_step_behavior_w :
    Conv.orderQueryExec (Conv.ConvState.mk "s1" "u1" "order_query" [] [] 0 0) "ORD123456 查询"
        = .ok ("订单查询结果：\n订单号：" ++ Conv.extractOrderID "ORD123456 查询" ++ "\n"
              ++ Conv.queryOrderStatus (Conv.extractOrderID "ORD123456 查询"),
            { Conv.ConvState.mk "s1" "u1" "order_query" [] [] 0 0 with
                context := aset [] "order_id" (Conv.CtxVal.s (Conv.extractOrderID "ORD123456 查询")),
                currentStep := "greeting" }) ∧
      (Conv.extractOrderID "ORD123456 查询").toList.take 3 = ['O', 'R', 'D'] :=
  ⟨(c6_order_step_behavior (Conv.ConvState.mk "s1" "u1" "order_query" [] [] 0 0)
      "ORD123456 查询").2.1 (by decide),
    ((c6_order_step_behavior (Conv.ConvState.mk "s1" "u1" "order_query" [] [] 0 0)
      "ORD123456 查询").2.2 (by decide)).1⟩

/-- C8 counterexample: a session whose `currentStep` names no registered
step makes `ConversationFlow.ProcessInput` fail with a step-not-found
error — it does not fall back to the greeting step and produces no
response. -/
theorem c8_unknown_step_cex :
    Conv.processInput Conv.defaultFlow
        (Conv.ConvState.mk "s1" "u1" "bogus" [] [] 0 0) "你好"
      = .error ("未找到当前步骤: " ++ "bogus") := by rfl

/-- C8 amended: for every session whose `currentStep` does not name a
registered step, `ConversationFlow.ProcessInput` fails with the
step-not-found error instead of treating the session as being in the
greeting step. -/
theorem c8_unknown_step_errors (st : Conv.ConvState) (input : String)
    (h : st.currentStep ∉ Conv.stepNames) :
    Conv.processInput Conv.defaultFlow st input
      = .error ("未找到当前步骤: " ++ st.currentStep) := by
  simp only [Conv.stepNames, List.mem_cons, List.not_mem_nil, or_false, not_or] at h
  obtain ⟨h₁, h₂, h₃⟩ := h
  have g₁ : (Conv.greetingStep.name == st.currentStep) = false := by
    simp only [Conv.greetingStep, beq_eq_false_iff_ne, ne_eq]
    exact fun e => h₁ e.symm
  have g₂ : (Conv.orderQueryStep.name == st.currentStep) = false := by
    simp only [Conv.orderQueryStep, beq_eq_false_iff_ne, ne_eq]
    exact fun e => h₂ e.symm
  have g₃ : (Conv.refundRequestStep.name == st.currentStep) = false := by
    simp only [Conv.refundRequestStep, beq_eq_false_iff_ne, ne_eq]
    exact fun e => h₃ e.symm
  simp [Conv.processInput, Conv.findStep, Conv.defaultFlow, List.find?_cons, g₁, g₂, g₃]

/-- C8 witness: the amended behaviour at a concrete unknown step. -/
theorem c8_unknown_step_errors_w :
    Conv.processInput Conv.defaultFlow
        (Conv.ConvState.mk "s2" "u1" "bad_step" [] [] 1 1) "订单"
      = .error ("未找到当前步骤: " ++ "bad_step") :=
  c8_unknown_step_errors (Conv.ConvState.mk "s2" "u1" "bad_step" [] [] 1 1) "订单"
    (by decide)

namespace Conv

/-- The transition scan either keeps the step or installs the name of a
registered step. -/
theorem applyTransition_step_mem (flow : List Step) (st : ConvState) (input : String) :
    (applyTransition flow st input).currentStep = st.currentStep ∨
      (applyTransition flow st input).currentStep ∈ flow.map (fun s => s.name) := by
  unfold applyTransition
  cases hf : flow.find? (fun s => s.name != st.currentStep && s.canTransition st input) with
  | none => left; rfl
  | some s =>
    right
    simp only [List.mem_map]
    exact ⟨s, List.mem_of_find?_eq_some hf, rfl⟩

/-- `GreetingStep.Execute` always succeeds, keeping the step or moving to
a registered one. -/
theorem greetingExec_ok (st : ConvState) (input : String) :
    ∃ r st₁, greetingExec st input = .ok (r, st₁) ∧
      (st₁.currentStep = st.currentStep ∨ st₁.currentStep ∈ stepNames) := by
  unfold greetingExec
  split
  · exact ⟨_, _, rfl, Or.inr (by simp [stepNames])⟩
  · split
    · exact ⟨_, _, rfl, Or.inr (by simp [stepNames])⟩
    · exact ⟨_, _, rfl, Or.inl rfl⟩

/-- `OrderQueryStep.Execute` always succeeds, keeping the step or moving
to `greeting`. -/
theorem orderQueryExec_ok (st : ConvState) (input : String) :
    ∃ r st₁, orderQueryExec st input = .ok (r, st₁) ∧
      (st₁.currentStep = st.currentStep ∨ st₁.currentStep ∈ stepNames) := by
  by_cases h : extractOrderID input = ""
  · have heq : orderQueryExec st input =
        .ok ("抱歉，我没有找到有效的订单号。请提供您的订单号，格式通常为\x27ORD\x27开头的字符串。", st) := by
      simp [orderQueryExec, h]
    exact ⟨_, _, heq, Or.inl rfl⟩
  · have heq : orderQueryExec st input =
        .ok ("订单查询结果：\n订单号：" ++ extractOrderID input ++ "\n"
            ++ queryOrderStatus (extractOrderID input),
          { st with
              context := aset st.context "order_id" (CtxVal.s (extractOrderID input)),
              currentStep := "greeting" }) := by
      simp [orderQueryExec, h]
    exact ⟨_, _, heq, Or.inr (by simp [stepNames])⟩

/-- `RefundRequestStep.Execute` always succeeds, keeping the step or
moving to `greeting`. -/
theorem refundRequestExec_ok (st : ConvState) (input : String) :
    ∃ r st₁, refundRequestExec st input = .ok (r, st₁) ∧
      (st₁.currentStep = st.currentStep ∨ st₁.currentStep ∈ stepNames) := by
  by_cases h : extractOrderID input = ""
  · have heq : refundRequestExec st input =
        .ok ("抱歉，我没有找到有效的订单号。请提供您的订单号，格式通常为\x27ORD\x27开头的字符串。", st) := by
      simp [refundRequestExec, h]
    exact ⟨_, _, heq, Or.inl rfl⟩
  · by_cases h₂ : extractRefundReason input = ""
    · have heq : refundRequestExec st input =
          .ok ("请说明您的退款原因，例如：商品质量问题、不想要了、发错货等。",
            { st with
                context :=
                  aset (aset st.context "order_id" (CtxVal.s (extractOrderID input)))
                    "awaiting_refund_reason" (CtxVal.b true) }) := by
        simp [refundRequestExec, h, h₂]
      exact ⟨_, _, heq, Or.inl rfl⟩
    · have heq : refundRequestExec st input =
          .ok ("退款申请结果：\n订单号：" ++ extractOrderID input ++ "\n"
              ++ processRefundRequestMock (extractOrderID input) (extractRefundReason input),
            { st with
                context :=
                  adel (aset (aset st.context "order_id" (CtxVal.s (extractOrderID input)))
                      "refund_reason" (CtxVal.s (extractRefundReason input)))
                    "awaiting_refund_reason",
                currentStep := "greeting" }) := by
        simp [refundRequestExec, h, h₂]
      exact ⟨_, _, heq, Or.inr (by simp [stepNames])⟩

end Conv

/-- C10: processing one message preserves the invariant that the
session's step names a registered step: from any state whose
`currentStep` is `greeting`, `order_query` or `refund_request`,
`ConversationFlow.ProcessInput` succeeds and leaves `currentStep` in that
same set. -/
theorem c10_step_invariant (st : Conv.ConvState) (input : String)
    (h : st.currentStep ∈ Conv.stepNames) :
    ∃ resp st₂, Conv.processInput Conv.defaultFlow st input = .ok (resp, st₂) ∧
      st₂.currentStep ∈ Conv.stepNames := by
  have htrans : ∀ st₁ : Conv.ConvState, st₁.currentStep ∈ Conv.stepNames →
      (Conv.applyTransition Conv.defaultFlow st₁ input).currentStep ∈ Conv.stepNames := by
    intro st₁ h₁
    rcases Conv.applyTransition_step_mem Conv.defaultFlow st₁ input with he | hm
    · rw [he]; exact h₁
    · have hnames : Conv.defaultFlow.map (fun s => s.name) = Conv.stepNames := rfl
      rwa [hnames] at hm
  have hstep : ∀ stepImpl : Conv.Step,
      Conv.findStep Conv.defaultFlow st.currentStep = some stepImpl →
      (∃ r st₁, stepImpl.exec st input = .ok (r, st₁) ∧
        (st₁.currentStep = st.currentStep ∨ st₁.currentStep ∈ Conv.stepNames)) →
      ∃ resp st₂, Conv.processInput Conv.defaultFlow st input = .ok (resp, st₂) ∧
        st₂.currentStep ∈ Conv.stepNames := by
    intro stepImpl hf hex
    obtain ⟨r, st₁, hok, hmem⟩ := hex
    refine ⟨r, Conv.applyTransition Conv.defaultFlow st₁ input, ?_, ?_⟩
    · simp only [Conv.processInput, hf, hok]
    · apply htrans
      rcases hmem with he | hm
      · rw [he]; exact h
      · exact hm
  simp only [Conv.stepNames, List.mem_cons, List.not_mem_nil, or_false] at h
  rcases h with h | h | h
  · exact hstep Conv.greetingStep (by rw [h]; rfl) (Conv.greetingExec_ok st input)
  · exact hstep Conv.orderQueryStep (by rw [h]; rfl) (Conv.orderQueryExec_ok st input)
  · exact hstep Conv.refundRequestStep (by rw [h]; rfl) (Conv.refundRequestExec_ok st input)

/-- C10 witness: the invariant at a concrete greeting-state turn that
transitions into the refund flow. -/
theorem c10_step_invariant_w :
    ∃ resp st₂,
      Conv.processInput Conv.defaultFlow
          (Conv.ConvState.mk "s1" "u1" "greeting" [] [] 0 0) "我要退款"
        = .ok (resp, st₂) ∧ st₂.currentStep ∈ Conv.stepNames :=
  c10_step_invariant (Conv.ConvState.mk "s1" "u1" "greeting" [] [] 0 0) "我要退款"
    (by decide)

/-- C4: evaluation of `ReloadPlugin` on a loaded module: the inner
`LoadPlugin` finds the module still present in the table and fails with
the already-loaded error, so reload never succeeds; afterwards the module
is still listed with its stale tool list while its function references
are gone — it is neither freshly loaded nor left unloaded. -/
theorem c4_reload_always_fails :
    (Plug.reloadPlugin Plug.c4env Plug.c4pm "mathtool").2
        = some ("重新加载插件失败: " ++ ("插件 " ++ "mathtool" ++ " 已加载")) ∧
      List.lookup "mathtool" (Plug.reloadPlugin Plug.c4env Plug.c4pm "mathtool").1.plugins
        = some (Plug.PluginInfo.mk "mathtool" "/plugins/mathtool.so"
            [Plug.ToolInfo.mk "Add" "工具函数: Add" 1]) ∧
      List.lookup "mathtool.Add"
          (Plug.reloadPlugin Plug.c4env Plug.c4pm "mathtool").1.functions = none :=
  ⟨by rfl, by rfl, by rfl⟩
